import Mathlib

/-!
Verification of the EasyLib networking core against its specification.

Part 1 embeds the wire-format codec of `src/ldd/net/internal/protocol.cc`
(`Header::Builder`, `Header::Parser`, `ExtHeader::Parser`): a raw byte
buffer is a total function from offsets to byte cells, multi-byte fields
are big-endian (`htons`/`htonl`), and the integrity trailer is
CRC-16/CCITT-FALSE (`boost::crc_ccitt_type`: polynomial 0x1021, initial
value 0xFFFF, no reflection, no final xor), computed over the first 14
header bytes.

Part 2 embeds the session adapter of
`src/ldd/cage/internal/keeper_impl.cc` (`Keeper::Impl`): the ZooKeeper
handle is abstracted to its openness bit, the foreign submission calls
are oracles supplying the synchronous status they return, and the watch
maps are functions from paths to ordered watcher lists.
-/

/-- A raw byte buffer: memory of 8-bit cells addressed by offset. -/
def Buf : Type := Nat → Nat

/-- Read one byte; cells are `char`s, so a read observes the value mod 256. -/
def readByte (buf : Buf) (i : Nat) : Nat := buf i % 256

/-- Write one byte at offset `i`; an 8-bit store truncates the value. -/
def writeByte (buf : Buf) (i v : Nat) : Buf :=
  fun j => if j = i then v % 256 else buf j

/-- Store a 16-bit value big-endian (`htons`) at offsets `i`, `i+1`. -/
def write16 (buf : Buf) (i v : Nat) : Buf :=
  writeByte (writeByte buf i (v / 256)) (i + 1) v

/-- Read a 16-bit big-endian value (`ntohs`) from offsets `i`, `i+1`. -/
def read16 (buf : Buf) (i : Nat) : Nat :=
  readByte buf i * 256 + readByte buf (i + 1)

/-- Store a 32-bit value big-endian (`htonl`) at offsets `i..i+3`. -/
def write32 (buf : Buf) (i v : Nat) : Buf :=
  writeByte (writeByte (writeByte (writeByte buf i
    (v / 16777216)) (i + 1) (v / 65536)) (i + 2) (v / 256)) (i + 3) v

/-- Read a 32-bit big-endian value (`ntohl`) from offsets `i..i+3`. -/
def read32 (buf : Buf) (i : Nat) : Nat :=
  readByte buf i * 16777216 + readByte buf (i + 1) * 65536 +
    readByte buf (i + 2) * 256 + readByte buf (i + 3)

/-- One bit step of CRC-16/CCITT-FALSE: the next state xors in the
polynomial 0x1021 (= 4129) exactly when the current top bit differs from
the incoming message bit; the 16-bit state shifts left with wraparound. -/
def crcStepBit (c : Nat) (b : Bool) : Nat :=
  if c.testBit 15 = b then c * 2 % 65536 else c * 2 % 65536 ^^^ 4129

/-- Fold the CRC bit step over a list of message bits. -/
def crcFold (c : Nat) (l : List Bool) : Nat := l.foldl crcStepBit c

/-- The bits of one byte, most significant first (`boost::crc` processes
each byte MSB-first for this non-reflected CRC). -/
def byteBits (v : Nat) : List Bool :=
  [v.testBit 7, v.testBit 6, v.testBit 5, v.testBit 4,
   v.testBit 3, v.testBit 2, v.testBit 1, v.testBit 0]

/-- CRC update over one whole byte. -/
def crcByte (c v : Nat) : Nat := crcFold c (byteBits v)

/-- CRC update over a list of bytes. -/
def crcList (c : Nat) (l : List Nat) : Nat := l.foldl crcByte c

/-- The first 14 header bytes of a buffer, in order (the checksummed region). -/
def hdrBytes (buf : Buf) : List Nat := (List.range' 0 14).map (readByte buf)

/-- `boost::crc_ccitt_type` applied to the first 14 bytes of the buffer,
as done by `Header::Parser::IsValid` and `Header::Builder::Build`. -/
def crc16 (buf : Buf) : Nat := crcList 65535 (hdrBytes buf)

/-- Modelled from the spec: `kMagic` is declared in `protocol.h`, which is
not among the sources; the spec fixes only that it is a 1-byte constant
marking the frame start (spec sections 3 and 6). The theorems below do not
depend on the chosen value. -/
def kMagic : Nat := 88

/-- Modelled from the spec: total header size in bytes, 14 fixed bytes
plus a 2-byte checksum trailer (spec section 3). -/
def kByteSize : Nat := 16

/-- Modelled from the spec: each extension item is 2 bytes, a type byte
and a length byte (spec section 6). -/
def kUnitSize : Nat := 2

/-- `Header::Builder::set_type`: writes the type byte at offset 1. -/
def Header.Builder.set_type (buf : Buf) (type : Nat) : Buf :=
  writeByte buf 1 type

/-- `Header::Builder::set_id`: writes the correlation id big-endian at
offsets 2..5. -/
def Header.Builder.set_id (buf : Buf) (id : Nat) : Buf :=
  write32 buf 2 id

/-- `Header::Builder::set_body_type`: writes the body type big-endian at
offsets 6..7. -/
def Header.Builder.set_body_type (buf : Buf) (body_type : Nat) : Buf :=
  write16 buf 6 body_type

/-- `Header::Builder::set_body_size`: saves byte 11, stores the 32-bit
value `body_size << 8` (a `uint32_t`, hence mod 2^32) big-endian at
offsets 8..11, then restores byte 11. -/
def Header.Builder.set_body_size (buf : Buf) (body_size : Nat) : Buf :=
  let x := readByte buf 11
  writeByte (write32 buf 8 (body_size * 256 % 4294967296)) 11 x

/-- `Header::Builder::set_ext_count`: writes the extension count at
offset 11. -/
def Header.Builder.set_ext_count (buf : Buf) (ext_count : Nat) : Buf :=
  writeByte buf 11 ext_count

/-- `Header::Builder::set_ext_len`: writes the extension length
big-endian at offsets 12..13. -/
def Header.Builder.set_ext_len (buf : Buf) (ext_len : Nat) : Buf :=
  write16 buf 12 ext_len

/-- `Header::Builder::Build`: writes the magic byte at offset 0, then the
CRC of the first 14 bytes big-endian at offsets 14..15. -/
def Header.Builder.Build (buf : Buf) : Buf :=
  let b := writeByte buf 0 kMagic
  write16 b (kByteSize - 2) (crc16 b)

/-- `Header::Parser::IsValid`: the frame is valid when byte 0 equals the
magic constant and the CRC of the first 14 bytes matches the trailing
big-endian 2-byte checksum. -/
def Header.Parser.IsValid (buf : Buf) : Bool :=
  if readByte buf 0 ≠ kMagic then false
  else if crc16 buf ≠ read16 buf (kByteSize - 2) then false
  else true

/-- `Header::Parser::type`: byte 1. -/
def Header.Parser.type (buf : Buf) : Nat := readByte buf 1

/-- `Header::Parser::id`: big-endian 32-bit value at offsets 2..5. -/
def Header.Parser.id (buf : Buf) : Nat := read32 buf 2

/-- `Header::Parser::body_type`: big-endian 16-bit value at offsets 6..7. -/
def Header.Parser.body_type (buf : Buf) : Nat := read16 buf 6

/-- `Header::Parser::body_size`: big-endian 32-bit value at offsets 8..11,
shifted right by 8 to recover the 24-bit size. -/
def Header.Parser.body_size (buf : Buf) : Nat := read32 buf 8 / 256

/-- `Header::Parser::ext_count`: byte 11. -/
def Header.Parser.ext_count (buf : Buf) : Nat := readByte buf 11

/-- `Header::Parser::ext_len`: big-endian 16-bit value at offsets 12..13. -/
def Header.Parser.ext_len (buf : Buf) : Nat := read16 buf 12

/-- `ExtHeader::Parser::IsValid`: sums the length byte of each of the
`ext_count` items into a `uint16_t` accumulator (hence mod 2^16) and
requires exact equality with the declared extension length. -/
def ExtHeader.Parser.IsValid (ext_count : Nat) (ext_buf : Buf) (ext_len : Nat) : Bool :=
  let len := (List.range ext_count).foldl
    (fun acc i => (acc + readByte ext_buf (i * kUnitSize + 1)) % 65536) 0
  if len ≠ ext_len then false else true

/-- `ExtHeader::Parser::GetExtItem`: rejects only when `index > ext_count`
(the source comparison is strict), otherwise returns the type and length
bytes of item `index`. -/
def ExtHeader.Parser.GetExtItem (ext_count : Nat) (ext_buf : Buf) (index : Nat) :
    Option (Nat × Nat) :=
  if index > ext_count then none
  else some (readByte ext_buf (index * kUnitSize),
             readByte ext_buf (index * kUnitSize + 1))

/-- The mathematical sum of the per-field length bytes of an extension
list with `ext_count` items (the quantity the spec compares against the
declared extension length). -/
def extLenSum (ext_count : Nat) (ext_buf : Buf) : Nat :=
  ((List.range ext_count).map (fun i => readByte ext_buf (i * kUnitSize + 1))).sum

/-- The frame obtained from header fields by the Builder setters followed
by `Build`, starting from an arbitrary backing buffer. -/
def builtFrame (buf : Buf) (type id body_type body_size ext_count ext_len : Nat) : Buf :=
  Header.Builder.Build
    (Header.Builder.set_ext_len
      (Header.Builder.set_ext_count
        (Header.Builder.set_body_size
          (Header.Builder.set_body_type
            (Header.Builder.set_id
              (Header.Builder.set_type buf type) id) body_type) body_size)
        ext_count) ext_len)

/-- The homogeneous (state-linear) part of the CRC bit step: how a state
perturbation evolves through one further bit of input. -/
def linStep0 (d : Nat) : Nat :=
  if d.testBit 15 then d * 2 % 65536 ^^^ 4129 else d * 2 % 65536

/-- The state perturbation after `k` further input bits. -/
def linIter : Nat → Nat → Nat
  | 0, d => d
  | k + 1, d => linStep0 (linIter k d)

/-- Modelled from the spec: the status values the adapter distinguishes
(`ldd::util::Status` lives outside the given sources; spec section 7 fixes
the taxonomy observed through `IsOk`/`IsBadArguments` and the
`kInvalidState` constant used by `keeper_impl.cc`). `kError` covers every
other submission/process failure code. -/
inductive Status where
  | kOk : Status
  | kInvalidState : Status
  | kBadArguments : Status
  | kError : Nat → Status
deriving DecidableEq

/-- `Status::IsOk`. -/
def Status.IsOk : Status → Bool
  | .kOk => true
  | _ => false

/-- `Status::IsBadArguments`. -/
def Status.IsBadArguments : Status → Bool
  | .kBadArguments => true
  | _ => false

/-- The observable state of `Keeper::Impl`: whether the ZooKeeper handle
`zh_` is non-null (`IsOpen`), and the watch maps `node_watcher_` and
`child_watcher_` (a path maps to its ordered watcher list; an absent path
is the empty list).  `W`/`C` are the node/child watcher function-object
types; `none` models a null watcher. -/
structure KeeperState (W C : Type) where
  zh : Bool
  node_watcher : String → List (Option W)
  child_watcher : String → List (Option C)

/-- `find`-or-insert-empty followed by `push_back`: append one watcher to
the list registered under `path`, leaving every other path untouched. -/
def registerWatch {α : Type} (m : String → List α) (path : String) (w : α) :
    String → List α :=
  fun q => if q = path then m q ++ [w] else m q

/-- The synchronously observable outcome of one async operation call: the
adapter state afterwards, whether the user callback was invoked
synchronously (and with which failure status), whether the request
reached the foreign submit call, and whether a non-null watch function
pointer was passed to that call. -/
structure OpRun (W C : Type) where
  state : KeeperState W C
  callbackNow : Option Status := none
  submitted : Bool := false
  watchFnPassed : Bool := false

/-- `Keeper::Impl::Get`: on a closed session fail synchronously with
`kInvalidState`; otherwise submit through `zoo_awget` (whose synchronous
return is the oracle `submit`), passing `WatchNode` only for a non-null
watcher.  Only when submission is accepted is the watcher (null or not)
appended to the path's node-watcher list; on synchronous submission
failure the callback fires once with that error and nothing is
registered. -/
def Keeper.Impl.Get {W C : Type} (st : KeeperState W C) (path : String)
    (watcher : Option W) (submit : Status) : OpRun W C :=
  if !st.zh then
    { state := st, callbackNow := some Status.kInvalidState }
  else if submit.IsOk then
    { state := { st with node_watcher := registerWatch st.node_watcher path watcher },
      submitted := true, watchFnPassed := watcher.isSome }
  else
    { state := st, callbackNow := some submit,
      submitted := true, watchFnPassed := watcher.isSome }

/-- `Keeper::Impl::Exists`: same control flow as `Get`, submitting through
`zoo_awexists`. -/
def Keeper.Impl.Exists {W C : Type} (st : KeeperState W C) (path : String)
    (watcher : Option W) (submit : Status) : OpRun W C :=
  if !st.zh then
    { state := st, callbackNow := some Status.kInvalidState }
  else if submit.IsOk then
    { state := { st with node_watcher := registerWatch st.node_watcher path watcher },
      submitted := true, watchFnPassed := watcher.isSome }
  else
    { state := st, callbackNow := some submit,
      submitted := true, watchFnPassed := watcher.isSome }

/-- `Keeper::Impl::GetChildren`: like `Get` but the watcher goes to the
child-watcher map, submitting through `zoo_awget_children`. -/
def Keeper.Impl.GetChildren {W C : Type} (st : KeeperState W C) (path : String)
    (watcher : Option C) (submit : Status) : OpRun W C :=
  if !st.zh then
    { state := st, callbackNow := some Status.kInvalidState }
  else if submit.IsOk then
    { state := { st with child_watcher := registerWatch st.child_watcher path watcher },
      submitted := true, watchFnPassed := watcher.isSome }
  else
    { state := st, callbackNow := some submit,
      submitted := true, watchFnPassed := watcher.isSome }

/-- `Keeper::Impl::GetChildrenWithStat`: identical to `GetChildren`,
submitting through `zoo_awget_children2`. -/
def Keeper.Impl.GetChildrenWithStat {W C : Type} (st : KeeperState W C) (path : String)
    (watcher : Option C) (submit : Status) : OpRun W C :=
  if !st.zh then
    { state := st, callbackNow := some Status.kInvalidState }
  else if submit.IsOk then
    { state := { st with child_watcher := registerWatch st.child_watcher path watcher },
      submitted := true, watchFnPassed := watcher.isSome }
  else
    { state := st, callbackNow := some submit,
      submitted := true, watchFnPassed := watcher.isSome }

/-- `Keeper::Impl::Create`: no watch; closed session or synchronous
`zoo_acreate` failure invokes the callback once with the failure. -/
def Keeper.Impl.Create {W C A : Type} (st : KeeperState W C) (path value : String)
    (acls : List A) (mode : Nat) (submit : Status) : OpRun W C :=
  if !st.zh then
    { state := st, callbackNow := some Status.kInvalidState }
  else if submit.IsOk then
    { state := st, submitted := true }
  else
    { state := st, callbackNow := some submit, submitted := true }

/-- `Keeper::Impl::Delete` (`zoo_adelete`). -/
def Keeper.Impl.Delete {W C : Type} (st : KeeperState W C) (path : String)
    (version : Int) (submit : Status) : OpRun W C :=
  if !st.zh then
    { state := st, callbackNow := some Status.kInvalidState }
  else if submit.IsOk then
    { state := st, submitted := true }
  else
    { state := st, callbackNow := some submit, submitted := true }

/-- `Keeper::Impl::Set` (`zoo_aset`). -/
def Keeper.Impl.Set {W C : Type} (st : KeeperState W C) (path value : String)
    (version : Int) (submit : Status) : OpRun W C :=
  if !st.zh then
    { state := st, callbackNow := some Status.kInvalidState }
  else if submit.IsOk then
    { state := st, submitted := true }
  else
    { state := st, callbackNow := some submit, submitted := true }

/-- `Keeper::Impl::GetAcl` (`zoo_aget_acl`). -/
def Keeper.Impl.GetAcl {W C : Type} (st : KeeperState W C) (path : String)
    (submit : Status) : OpRun W C :=
  if !st.zh then
    { state := st, callbackNow := some Status.kInvalidState }
  else if submit.IsOk then
    { state := st, submitted := true }
  else
    { state := st, callbackNow := some submit, submitted := true }

/-- `Keeper::Impl::SetAcl` (`zoo_aset_acl`). -/
def Keeper.Impl.SetAcl {W C A : Type} (st : KeeperState W C) (path : String)
    (acls : List A) (version : Int) (submit : Status) : OpRun W C :=
  if !st.zh then
    { state := st, callbackNow := some Status.kInvalidState }
  else if submit.IsOk then
    { state := st, submitted := true }
  else
    { state := st, callbackNow := some submit, submitted := true }

/-- `Keeper::Impl::AddAuth` (`zoo_add_auth`). -/
def Keeper.Impl.AddAuth {W C : Type} (st : KeeperState W C) (scheme cert : String)
    (submit : Status) : OpRun W C :=
  if !st.zh then
    { state := st, callbackNow := some Status.kInvalidState }
  else if submit.IsOk then
    { state := st, submitted := true }
  else
    { state := st, callbackNow := some submit, submitted := true }

/-- The completion record `CallbackWrapper::Impl<MultiResult>` built by
`Multi`: the expected result count and the ordered per-step result
slots. -/
structure MultiCb (R : Type) where
  count : Nat
  results : List R

/-- `Keeper::Impl::Multi`: on an open session, build the completion
record with `count = ops.size()` and one `MakeResult` slot appended per
step in submission order (`CHECK_EQ` then compares slot count with
count), then submit the whole batch via `zoo_amulti`; synchronous failure
invokes the callback once with an aggregate failure. -/
def Keeper.Impl.Multi {W C O R : Type} (st : KeeperState W C) (ops : List O)
    (MakeResult : O → R) (submit : Status) : OpRun W C × Option (MultiCb R) :=
  if !st.zh then
    ({ state := st, callbackNow := some Status.kInvalidState }, none)
  else
    let cb : MultiCb R := { count := ops.length, results := ops.map MakeResult }
    if submit.IsOk then
      ({ state := st, submitted := true }, some cb)
    else
      ({ state := st, callbackNow := some submit, submitted := true }, some cb)

/-- `Keeper::Impl::Process`: `kInvalidState` when the handle is null,
otherwise whatever `zookeeper_process` returns. -/
def Keeper.Impl.Process (zhOpen : Bool) (zooStatus : Status) : Status :=
  if !zhOpen then Status.kInvalidState else zooStatus

/-- The session state observed after `Process` returns: completion
callbacks running inside `zookeeper_process` may close the session, and
the foreign handle may have become unrecoverable. -/
structure SessionAfter where
  isOpen : Bool
  unrecoverable : Bool

/-- `Keeper::Impl::HandleEvent` after the readiness flags have been
delivered: `CHECK(!s.IsBadArguments())` aborts (`none`) on a
bad-arguments failure; otherwise the handler re-arms (calls
`UpdateEvent`, which unconditionally arms exactly one reactor wait)
precisely when `IsOpen()` holds and `IsUnrecoverable()` does not.
`some rearm` reports whether another wait was armed. -/
def Keeper.Impl.HandleEvent (zhOpen : Bool) (zooStatus : Status)
    (after : SessionAfter) : Option Bool :=
  let s := Keeper.Impl.Process zhOpen zooStatus
  if !s.IsOk && s.IsBadArguments then none
  else some (after.isOpen && !after.unrecoverable)

/-- A closed-session fixture used by the concrete instantiations below. -/
def stClosed : KeeperState Nat Nat :=
  { zh := false, node_watcher := fun _ => [], child_watcher := fun _ => [] }

/-- An open-session fixture with empty watch maps. -/
def stOpen : KeeperState Nat Nat :=
  { zh := true, node_watcher := fun _ => [], child_watcher := fun _ => [] }

theorem readByte_writeByte_self (buf : Buf) (i v : Nat) :
    readByte (writeByte buf i v) i = v % 256 := by
  simp [readByte, writeByte]

theorem readByte_writeByte_ne (buf : Buf) (i j v : Nat) (h : j ≠ i) :
    readByte (writeByte buf i v) j = readByte buf j := by
  simp [readByte, writeByte, h]

theorem readByte_lt (buf : Buf) (i : Nat) : readByte buf i < 256 := by
  simp [readByte]
  omega

theorem hdrBytes_congr {b1 b2 : Buf}
    (h : ∀ i, i < 14 → readByte b1 i = readByte b2 i) :
    hdrBytes b1 = hdrBytes b2 := by
  unfold hdrBytes
  apply List.map_congr_left
  intro a ha
  rw [List.mem_range'] at ha
  obtain ⟨i, hi, rfl⟩ := ha
  exact h _ (by omega)

theorem crc16_congr {b1 b2 : Buf}
    (h : ∀ i, i < 14 → readByte b1 i = readByte b2 i) :
    crc16 b1 = crc16 b2 := by
  unfold crc16
  rw [hdrBytes_congr h]

theorem crcStepBit_lt (c : Nat) (b : Bool) : crcStepBit c b < 65536 := by
  have e : (65536 : Nat) = 2 ^ 16 := by norm_num
  have h1 : c * 2 % 65536 < 65536 := Nat.mod_lt _ (by norm_num)
  unfold crcStepBit
  split
  · exact h1
  · rw [e]
    exact Nat.xor_lt_two_pow (e ▸ h1) (by norm_num)

theorem crcFold_lt (l : List Bool) : ∀ c : Nat, c < 65536 → crcFold c l < 65536 := by
  induction l with
  | nil => intro c hc; exact hc
  | cons b l ih => intro c _; exact ih (crcStepBit c b) (crcStepBit_lt c b)

theorem crcList_lt (l : List Nat) : ∀ c : Nat, c < 65536 → crcList c l < 65536 := by
  induction l with
  | nil => intro c hc; exact hc
  | cons v l ih => intro c hc; exact ih (crcByte c v) (crcFold_lt _ _ hc)

theorem crc16_lt (buf : Buf) : crc16 buf < 65536 :=
  crcList_lt _ _ (by norm_num)

theorem read16_write16 (buf : Buf) (i v : Nat) :
    read16 (write16 buf i v) i = v % 65536 := by
  unfold read16 write16
  rw [readByte_writeByte_ne _ _ _ _ (by omega), readByte_writeByte_self,
    readByte_writeByte_self]
  omega

/-- C2: `set_ext_count c` followed by `set_body_size n` leaves the stored
extension-count byte (offset 11) equal to `c`, and `set_body_size` changes
no header byte other than the three size bytes at offsets 8, 9, 10. -/
theorem set_body_size_preserves_ext_count (buf buf2 : Buf) (c n i : Nat)
    (hc : c < 256) (hn : n < 16777216) (h8 : i ≠ 8) (h9 : i ≠ 9) (h10 : i ≠ 10) :
    readByte (Header.Builder.set_body_size (Header.Builder.set_ext_count buf c) n) 11 = c ∧
    readByte (Header.Builder.set_body_size buf2 n) i = readByte buf2 i := by
  constructor
  · simp only [Header.Builder.set_body_size, Header.Builder.set_ext_count]
    rw [readByte_writeByte_self, readByte_writeByte_self]
    omega
  · simp only [Header.Builder.set_body_size, write32]
    by_cases hi : i = 11
    · subst hi
      rw [readByte_writeByte_self]
      simp [readByte]
    · rw [readByte_writeByte_ne _ _ _ _ hi,
        readByte_writeByte_ne _ _ _ _ (show i ≠ 8 + 3 by omega),
        readByte_writeByte_ne _ _ _ _ (show i ≠ 8 + 2 by omega),
        readByte_writeByte_ne _ _ _ _ (show i ≠ 8 + 1 by omega),
        readByte_writeByte_ne _ _ _ _ h8]

/-- Witness for C2 at a concrete input. -/
theorem set_body_size_preserves_ext_count_witness :
    7 < 256 ∧ 5 < 16777216 ∧ (0 ≠ 8 ∧ 0 ≠ 9 ∧ 0 ≠ 10) ∧
    (readByte (Header.Builder.set_body_size
        (Header.Builder.set_ext_count (fun _ => 0) 7) 5) 11 = 7 ∧
      readByte (Header.Builder.set_body_size (fun _ => 3) 5) 0 = readByte (fun _ => 3) 0) :=
  ⟨by decide, by decide, ⟨by decide, by decide, by decide⟩,
    set_body_size_preserves_ext_count (fun _ => 0) (fun _ => 3) 7 5 0
      (by decide) (by decide) (by decide) (by decide) (by decide)⟩

/-- C3: the claim states `GetExtItem` must report an out-of-range failure for
every `index ≥ ext_count`, in particular at `index = ext_count`.  The source
bounds check is strict (`index > ext_count_`), so `index = ext_count` is
accepted: with `ext_count = 0` and an all-zero buffer, `GetExtItem 0`
succeeds and returns the two bytes lying past the declared items. -/
theorem getExtItem_index_eq_count_accepted :
    ExtHeader.Parser.GetExtItem 0 (fun _ => 0) 0 = some (0, 0) := rfl

theorem foldl_mod_add (l : List Nat) : ∀ a : Nat, a < 65536 →
    l.foldl (fun acc x => (acc + x) % 65536) a = (a + l.sum) % 65536 := by
  induction l with
  | nil => intro a ha; simp [Nat.mod_eq_of_lt ha]
  | cons x l ih =>
    intro a ha
    rw [List.foldl_cons, ih _ (Nat.mod_lt _ (by norm_num)), List.sum_cons,
      Nat.mod_add_mod]
    omega

theorem extLenSum_le (ext_count : Nat) (ext_buf : Buf) :
    extLenSum ext_count ext_buf ≤ 255 * ext_count := by
  induction ext_count with
  | zero => simp [extLenSum]
  | succ n ih =>
    unfold extLenSum at *
    rw [List.range_succ, List.map_append, List.sum_append]
    simp only [List.map_cons, List.map_nil, List.sum_cons, List.sum_nil]
    have := readByte_lt ext_buf (n * kUnitSize + 1)
    omega

/-- C4: extension validation succeeds exactly when the per-field length
bytes sum to the declared extension length; in particular declaring the
true sum plus one fails.  The `uint16_t` accumulator cannot wrap because
at most 255 items of at most 255 each are summed. -/
theorem ext_isvalid_iff_sum (ext_count : Nat) (ext_buf : Buf) (ext_len : Nat)
    (hc : ext_count < 256) (hl : ext_len < 65536) :
    (ExtHeader.Parser.IsValid ext_count ext_buf ext_len = true ↔
      extLenSum ext_count ext_buf = ext_len) ∧
    ExtHeader.Parser.IsValid ext_count ext_buf (extLenSum ext_count ext_buf + 1) = false := by
  have hsum_lt : extLenSum ext_count ext_buf < 65536 := by
    have := extLenSum_le ext_count ext_buf
    omega
  have hfold : (List.range ext_count).foldl
      (fun acc i => (acc + readByte ext_buf (i * kUnitSize + 1)) % 65536) 0
      = extLenSum ext_count ext_buf := by
    have hm := List.foldl_map (fun i => readByte ext_buf (i * kUnitSize + 1))
      (fun acc x => (acc + x) % 65536) (List.range ext_count) 0
    rw [← hm, foldl_mod_add _ 0 (by norm_num)]
    simp only [Nat.zero_add]
    exact Nat.mod_eq_of_lt hsum_lt
  constructor
  · simp only [ExtHeader.Parser.IsValid, hfold]
    split
    · simp_all
    · simp_all
  · simp only [ExtHeader.Parser.IsValid, hfold]
    split
    · rfl
    · omega

/-- Witness for C4 at a concrete input. -/
theorem ext_isvalid_iff_sum_witness :
    2 < 256 ∧ 0 < 65536 ∧
    ((ExtHeader.Parser.IsValid 2 (fun _ => 0) 0 = true ↔
        extLenSum 2 (fun _ => 0) = 0) ∧
      ExtHeader.Parser.IsValid 2 (fun _ => 0) (extLenSum 2 (fun _ => 0) + 1) = false) :=
  ⟨by decide, by decide,
    ext_isvalid_iff_sum 2 (fun _ => 0) 0 (by decide) (by decide)⟩

theorem readByte_Build_lt14 (buf : Buf) (i : Nat) (h1 : i < 14) (h2 : 0 < i) :
    readByte (Header.Builder.Build buf) i = readByte buf i := by
  simp only [Header.Builder.Build, kByteSize, write16]
  rw [readByte_writeByte_ne _ _ _ _ (by omega),
    readByte_writeByte_ne _ _ _ _ (by omega),
    readByte_writeByte_ne _ _ _ _ (by omega)]

theorem readByte_Build_zero (buf : Buf) :
    readByte (Header.Builder.Build buf) 0 = kMagic := by
  simp only [Header.Builder.Build, kByteSize, write16]
  rw [readByte_writeByte_ne _ _ _ _ (by omega),
    readByte_writeByte_ne _ _ _ _ (by omega), readByte_writeByte_self]
  rfl

theorem crc16_Build (buf : Buf) :
    crc16 (Header.Builder.Build buf) = crc16 (writeByte buf 0 kMagic) := by
  apply crc16_congr
  intro i hi
  simp only [Header.Builder.Build, kByteSize, write16]
  rw [readByte_writeByte_ne _ _ _ _ (by omega),
    readByte_writeByte_ne _ _ _ _ (by omega)]

theorem read16_Build (buf : Buf) :
    read16 (Header.Builder.Build buf) (kByteSize - 2) = crc16 (writeByte buf 0 kMagic) := by
  simp only [Header.Builder.Build]
  rw [read16_write16]
  exact Nat.mod_eq_of_lt (crc16_lt _)

/-- Any built frame passes `Header::Parser::IsValid`: the magic byte was
just written and the trailing checksum is the CRC of the very bytes the
parser re-checksums. -/
theorem isValid_Build (buf : Buf) :
    Header.Parser.IsValid (Header.Builder.Build buf) = true := by
  unfold Header.Parser.IsValid
  rw [readByte_Build_zero, crc16_Build, read16_Build]
  simp

/-- C1: building a frame from valid header fields with the Builder setters
followed by `Build`, then reading it back with the Parser, recovers every
field exactly, and `IsValid` accepts the built buffer. -/
theorem header_roundtrip (buf : Buf) (t idv bt n c el : Nat)
    (ht : t < 256) (hi : idv < 4294967296) (hbt : bt < 65536)
    (hn : n < 16777216) (hc : c < 256) (hel : el < 65536) :
    Header.Parser.type (builtFrame buf t idv bt n c el) = t ∧
    Header.Parser.id (builtFrame buf t idv bt n c el) = idv ∧
    Header.Parser.body_type (builtFrame buf t idv bt n c el) = bt ∧
    Header.Parser.body_size (builtFrame buf t idv bt n c el) = n ∧
    Header.Parser.ext_count (builtFrame buf t idv bt n c el) = c ∧
    Header.Parser.ext_len (builtFrame buf t idv bt n c el) = el ∧
    Header.Parser.IsValid (builtFrame buf t idv bt n c el) = true := by
  refine ⟨?_, ?_, ?_, ?_, ?_, ?_, isValid_Build _⟩
  · rw [Header.Parser.type, builtFrame, readByte_Build_lt14 _ _ (by omega) (by omega)]
    simp [Header.Builder.set_ext_len, Header.Builder.set_ext_count,
      Header.Builder.set_body_size, Header.Builder.set_body_type,
      Header.Builder.set_id, Header.Builder.set_type, write32, write16,
      writeByte, readByte]
    omega
  · rw [Header.Parser.id, builtFrame, read32,
      readByte_Build_lt14 _ _ (by omega) (by omega),
      readByte_Build_lt14 _ _ (by omega) (by omega),
      readByte_Build_lt14 _ _ (by omega) (by omega),
      readByte_Build_lt14 _ _ (by omega) (by omega)]
    simp [Header.Builder.set_ext_len, Header.Builder.set_ext_count,
      Header.Builder.set_body_size, Header.Builder.set_body_type,
      Header.Builder.set_id, Header.Builder.set_type, write32, write16,
      writeByte, readByte]
    omega
  · rw [Header.Parser.body_type, builtFrame, read16,
      readByte_Build_lt14 _ _ (by omega) (by omega),
      readByte_Build_lt14 _ _ (by omega) (by omega)]
    simp [Header.Builder.set_ext_len, Header.Builder.set_ext_count,
      Header.Builder.set_body_size, Header.Builder.set_body_type,
      Header.Builder.set_id, Header.Builder.set_type, write32, write16,
      writeByte, readByte]
    omega
  · rw [Header.Parser.body_size, builtFrame, read32,
      readByte_Build_lt14 _ _ (by omega) (by omega),
      readByte_Build_lt14 _ _ (by omega) (by omega),
      readByte_Build_lt14 _ _ (by omega) (by omega),
      readByte_Build_lt14 _ _ (by omega) (by omega)]
    simp [Header.Builder.set_ext_len, Header.Builder.set_ext_count,
      Header.Builder.set_body_size, Header.Builder.set_body_type,
      Header.Builder.set_id, Header.Builder.set_type, write32, write16,
      writeByte, readByte]
    omega
  · rw [Header.Parser.ext_count, builtFrame,
      readByte_Build_lt14 _ _ (by omega) (by omega)]
    simp [Header.Builder.set_ext_len, Header.Builder.set_ext_count,
      Header.Builder.set_body_size, Header.Builder.set_body_type,
      Header.Builder.set_id, Header.Builder.set_type, write32, write16,
      writeByte, readByte]
    omega
  · rw [Header.Parser.ext_len, builtFrame, read16,
      readByte_Build_lt14 _ _ (by omega) (by omega),
      readByte_Build_lt14 _ _ (by omega) (by omega)]
    simp [Header.Builder.set_ext_len, Header.Builder.set_ext_count,
      Header.Builder.set_body_size, Header.Builder.set_body_type,
      Header.Builder.set_id, Header.Builder.set_type, write32, write16,
      writeByte, readByte]
    omega

theorem xor_mul_two (a b : Nat) : (a ^^^ b) * 2 = a * 2 ^^^ b * 2 := by
  have h : ∀ x : Nat, x * 2 = x <<< 1 := by
    intro x
    rw [Nat.shiftLeft_eq]
  rw [h, h, h]
  apply Nat.eq_of_testBit_eq
  intro i
  simp only [Nat.testBit_shiftLeft, Nat.testBit_xor, Bool.and_xor_distrib_left]

theorem xor_mod_two_pow16 (a b : Nat) : (a ^^^ b) % 65536 = a % 65536 ^^^ b % 65536 := by
  have h : ∀ n : Nat, n % 65536 = n % 2 ^ 16 := by
    intro n
    norm_num
  rw [h, h, h]
  apply Nat.eq_of_testBit_eq
  intro i
  simp only [Nat.testBit_mod_two_pow, Nat.testBit_xor, Bool.and_xor_distrib_left]

theorem xor_left_comm (a b c : Nat) : a ^^^ (b ^^^ c) = b ^^^ (a ^^^ c) := by
  rw [← Nat.xor_assoc, Nat.xor_comm a b, Nat.xor_assoc]

theorem linIter_add (m n d : Nat) : linIter (m + n) d = linIter m (linIter n d) := by
  induction m with
  | zero => simp [Nat.zero_add, linIter]
  | succ k ih =>
    have e : k + 1 + n = (k + n) + 1 := by omega
    rw [e]
    show linStep0 (linIter (k + n) d) = linStep0 (linIter k (linIter n d))
    rw [ih]

theorem linIter_succ_inner (k d : Nat) : linIter (k + 1) d = linIter k (linStep0 d) := by
  rw [linIter_add k 1 d]
  rfl

/-- Xoring a perturbation into the CRC state commutes with the bit step:
the CRC is affine in its state over GF(2). -/
theorem crcStepBit_state_xor (c d : Nat) (b : Bool) :
    crcStepBit (c ^^^ d) b = crcStepBit c b ^^^ linStep0 d := by
  have ht := Nat.testBit_xor c d 15
  have hs : (c ^^^ d) * 2 % 65536 = c * 2 % 65536 ^^^ d * 2 % 65536 := by
    rw [xor_mul_two, xor_mod_two_pow16]
  unfold crcStepBit linStep0
  rcases hc : c.testBit 15 <;> rcases hd : d.testBit 15 <;> cases b <;>
    simp [ht, hc, hd, hs, Nat.xor_assoc, Nat.xor_comm, xor_left_comm,
      Nat.xor_self, Nat.xor_zero, Nat.zero_xor, Nat.xor_cancel_left,
      Nat.xor_cancel_right]

/-- Flipping the incoming message bit perturbs the next CRC state by
exactly the polynomial. -/
theorem crcStepBit_flip (c : Nat) (b : Bool) :
    crcStepBit c (!b) = crcStepBit c b ^^^ 4129 := by
  unfold crcStepBit
  rcases hc : c.testBit 15 <;> cases b <;>
    simp [hc, Nat.xor_assoc, Nat.xor_self, Nat.xor_zero, Nat.xor_cancel_right]

theorem crcFold_state_xor (l : List Bool) : ∀ c d : Nat,
    crcFold (c ^^^ d) l = crcFold c l ^^^ linIter l.length d := by
  induction l with
  | nil => intro c d; simp [crcFold, linIter]
  | cons b l ih =>
    intro c d
    show crcFold (crcStepBit (c ^^^ d) b) l =
      crcFold (crcStepBit c b) l ^^^ linIter (l.length + 1) d
    rw [crcStepBit_state_xor, ih, linIter_succ_inner]

/-- Flipping one message bit perturbs the final CRC by the polynomial
evolved through the number of bits that follow the flipped one. -/
theorem crcFold_flip (p : List Bool) (b : Bool) (s : List Bool) (c : Nat) :
    crcFold c (p ++ (!b) :: s) = crcFold c (p ++ b :: s) ^^^ linIter s.length 4129 := by
  show List.foldl crcStepBit c (p ++ (!b) :: s) =
    List.foldl crcStepBit c (p ++ b :: s) ^^^ linIter s.length 4129
  rw [List.foldl_append, List.foldl_append, List.foldl_cons, List.foldl_cons]
  show crcFold (crcStepBit (List.foldl crcStepBit c p) (!b)) s =
    crcFold (crcStepBit (List.foldl crcStepBit c p) b) s ^^^ linIter s.length 4129
  rw [crcStepBit_flip, crcFold_state_xor]

/-- Flipping bit `k` of an input byte perturbs the CRC state after that
byte by the polynomial evolved through the `k` trailing bits of the byte. -/
theorem crcByte_flip (c v k : Nat) (hk : k < 8) :
    crcByte c (v ^^^ 2 ^ k) = crcByte c v ^^^ linIter k 4129 := by
  interval_cases k
  · have hb : byteBits (v ^^^ 2 ^ 0) =
        [v.testBit 7, v.testBit 6, v.testBit 5, v.testBit 4, v.testBit 3, v.testBit 2, v.testBit 1] ++ (!v.testBit 0) :: ([] : List Bool) := by
      simp only [byteBits, Nat.testBit_xor, Nat.testBit_two_pow]
      simp
    have horig : byteBits v =
        [v.testBit 7, v.testBit 6, v.testBit 5, v.testBit 4, v.testBit 3, v.testBit 2, v.testBit 1] ++ v.testBit 0 :: ([] : List Bool) := rfl
    simp only [crcByte]
    rw [hb, horig, crcFold_flip]
    rfl
  · have hb : byteBits (v ^^^ 2 ^ 1) =
        [v.testBit 7, v.testBit 6, v.testBit 5, v.testBit 4, v.testBit 3, v.testBit 2] ++ (!v.testBit 1) :: [v.testBit 0] := by
      simp only [byteBits, Nat.testBit_xor, Nat.testBit_two_pow]
      simp
    have horig : byteBits v =
        [v.testBit 7, v.testBit 6, v.testBit 5, v.testBit 4, v.testBit 3, v.testBit 2] ++ v.testBit 1 :: [v.testBit 0] := rfl
    simp only [crcByte]
    rw [hb, horig, crcFold_flip]
    rfl
  · have hb : byteBits (v ^^^ 2 ^ 2) =
        [v.testBit 7, v.testBit 6, v.testBit 5, v.testBit 4, v.testBit 3] ++ (!v.testBit 2) :: [v.testBit 1, v.testBit 0] := by
      simp only [byteBits, Nat.testBit_xor, Nat.testBit_two_pow]
      simp
    have horig : byteBits v =
        [v.testBit 7, v.testBit 6, v.testBit 5, v.testBit 4, v.testBit 3] ++ v.testBit 2 :: [v.testBit 1, v.testBit 0] := rfl
    simp only [crcByte]
    rw [hb, horig, crcFold_flip]
    rfl
  · have hb : byteBits (v ^^^ 2 ^ 3) =
        [v.testBit 7, v.testBit 6, v.testBit 5, v.testBit 4] ++ (!v.testBit 3) :: [v.testBit 2, v.testBit 1, v.testBit 0] := by
      simp only [byteBits, Nat.testBit_xor, Nat.testBit_two_pow]
      simp
    have horig : byteBits v =
        [v.testBit 7, v.testBit 6, v.testBit 5, v.testBit 4] ++ v.testBit 3 :: [v.testBit 2, v.testBit 1, v.testBit 0] := rfl
    simp only [crcByte]
    rw [hb, horig, crcFold_flip]
    rfl
  · have hb : byteBits (v ^^^ 2 ^ 4) =
        [v.testBit 7, v.testBit 6, v.testBit 5] ++ (!v.testBit 4) :: [v.testBit 3, v.testBit 2, v.testBit 1, v.testBit 0] := by
      simp only [byteBits, Nat.testBit_xor, Nat.testBit_two_pow]
      simp
    have horig : byteBits v =
        [v.testBit 7, v.testBit 6, v.testBit 5] ++ v.testBit 4 :: [v.testBit 3, v.testBit 2, v.testBit 1, v.testBit 0] := rfl
    simp only [crcByte]
    rw [hb, horig, crcFold_flip]
    rfl
  · have hb : byteBits (v ^^^ 2 ^ 5) =
        [v.testBit 7, v.testBit 6] ++ (!v.testBit 5) :: [v.testBit 4, v.testBit 3, v.testBit 2, v.testBit 1, v.testBit 0] := by
      simp only [byteBits, Nat.testBit_xor, Nat.testBit_two_pow]
      simp
    have horig : byteBits v =
        [v.testBit 7, v.testBit 6] ++ v.testBit 5 :: [v.testBit 4, v.testBit 3, v.testBit 2, v.testBit 1, v.testBit 0] := rfl
    simp only [crcByte]
    rw [hb, horig, crcFold_flip]
    rfl
  · have hb : byteBits (v ^^^ 2 ^ 6) =
        [v.testBit 7] ++ (!v.testBit 6) :: [v.testBit 5, v.testBit 4, v.testBit 3, v.testBit 2, v.testBit 1, v.testBit 0] := by
      simp only [byteBits, Nat.testBit_xor, Nat.testBit_two_pow]
      simp
    have horig : byteBits v =
        [v.testBit 7] ++ v.testBit 6 :: [v.testBit 5, v.testBit 4, v.testBit 3, v.testBit 2, v.testBit 1, v.testBit 0] := rfl
    simp only [crcByte]
    rw [hb, horig, crcFold_flip]
    rfl
  · have hb : byteBits (v ^^^ 2 ^ 7) =
        ([] : List Bool) ++ (!v.testBit 7) :: [v.testBit 6, v.testBit 5, v.testBit 4, v.testBit 3, v.testBit 2, v.testBit 1, v.testBit 0] := by
      simp only [byteBits, Nat.testBit_xor, Nat.testBit_two_pow]
      simp
    have horig : byteBits v =
        ([] : List Bool) ++ v.testBit 7 :: [v.testBit 6, v.testBit 5, v.testBit 4, v.testBit 3, v.testBit 2, v.testBit 1, v.testBit 0] := rfl
    simp only [crcByte]
    rw [hb, horig, crcFold_flip]
    rfl

theorem crcList_state_xor (l : List Nat) : ∀ c d : Nat,
    crcList (c ^^^ d) l = crcList c l ^^^ linIter (8 * l.length) d := by
  induction l with
  | nil => intro c d; simp [crcList, linIter]
  | cons v l ih =>
    intro c d
    show crcList (crcByte (c ^^^ d) v) l =
      crcList (crcByte c v) l ^^^ linIter (8 * (l.length + 1)) d
    have hb : crcByte (c ^^^ d) v = crcByte c v ^^^ linIter 8 d := by
      simp only [crcByte]
      rw [crcFold_state_xor]
      rfl
    have e : 8 * (l.length + 1) = 8 * l.length + 8 := by omega
    rw [hb, ih, e, linIter_add]

theorem crcList_flip (p : List Nat) (v w : Nat) (s : List Nat) (c D : Nat)
    (h : ∀ m : Nat, crcByte m w = crcByte m v ^^^ D) :
    crcList c (p ++ w :: s) = crcList c (p ++ v :: s) ^^^ linIter (8 * s.length) D := by
  show List.foldl crcByte c (p ++ w :: s) =
    List.foldl crcByte c (p ++ v :: s) ^^^ linIter (8 * s.length) D
  rw [List.foldl_append, List.foldl_append, List.foldl_cons, List.foldl_cons, h]
  show crcList (crcByte (List.foldl crcByte c p) v ^^^ D) s =
    crcList (crcByte (List.foldl crcByte c p) v) s ^^^ linIter (8 * s.length) D
  rw [crcList_state_xor]

theorem hdrBytes_decomp (buf : Buf) (j : Nat) (hj : j < 14) :
    hdrBytes buf = (List.range' 0 j).map (readByte buf) ++
      readByte buf j :: (List.range' (j + 1) (13 - j)).map (readByte buf) := by
  have h1 : List.range' 0 j ++ List.range' j (14 - j) = List.range' 0 14 := by
    have h := List.range'_append 0 j (14 - j) 1
    have e1 : 0 + 1 * j = j := by omega
    have e2 : 14 - j + j = 14 := by omega
    rw [e1, e2] at h
    exact h
  have h2 : List.range' j (14 - j) = j :: List.range' (j + 1) (13 - j) := by
    have e : 14 - j = (13 - j) + 1 := by omega
    rw [e, List.range'_succ]
  unfold hdrBytes
  rw [← h1, h2, List.map_append, List.map_cons]

/-- Flipping bit `k` of header byte `j` perturbs the CRC of the first
14 bytes by the polynomial evolved through all the message bits that
follow the flipped one. -/
theorem crc16_flipBit (buf : Buf) (j k : Nat) (hj : j < 14) (hk : k < 8) :
    crc16 (writeByte buf j (readByte buf j ^^^ 2 ^ k)) =
      crc16 buf ^^^ linIter (8 * (13 - j) + k) 4129 := by
  have hPre : (List.range' 0 j).map (readByte (writeByte buf j (readByte buf j ^^^ 2 ^ k)))
      = (List.range' 0 j).map (readByte buf) := by
    apply List.map_congr_left
    intro a ha
    rw [List.mem_range'] at ha
    obtain ⟨i, hi, rfl⟩ := ha
    exact readByte_writeByte_ne _ _ _ _ (by omega)
  have hSuf : (List.range' (j + 1) (13 - j)).map
        (readByte (writeByte buf j (readByte buf j ^^^ 2 ^ k)))
      = (List.range' (j + 1) (13 - j)).map (readByte buf) := by
    apply List.map_congr_left
    intro a ha
    rw [List.mem_range'] at ha
    obtain ⟨i, hi, rfl⟩ := ha
    exact readByte_writeByte_ne _ _ _ _ (by omega)
  have hAt : readByte (writeByte buf j (readByte buf j ^^^ 2 ^ k)) j
      = readByte buf j ^^^ 2 ^ k := by
    rw [readByte_writeByte_self]
    apply Nat.mod_eq_of_lt
    have h1 : readByte buf j < 256 := readByte_lt buf j
    have h2 : (2 : Nat) ^ k < 256 := by
      calc (2 : Nat) ^ k ≤ 2 ^ 7 := Nat.pow_le_pow_right (by norm_num) (by omega)
        _ < 256 := by norm_num
    have e : (256 : Nat) = 2 ^ 8 := by norm_num
    rw [e] at h1 h2 ⊢
    exact Nat.xor_lt_two_pow h1 h2
  have hlen : ((List.range' (j + 1) (13 - j)).map (readByte buf)).length = 13 - j := by
    rw [List.length_map, List.length_range']
  rw [crc16, crc16,
    hdrBytes_decomp (writeByte buf j (readByte buf j ^^^ 2 ^ k)) j hj,
    hdrBytes_decomp buf j hj,
    hPre, hSuf, hAt,
    crcList_flip _ _ _ _ _ _ (fun m => crcByte_flip m (readByte buf j) k hk),
    hlen, ← linIter_add]

/-- The CCITT polynomial never decays to the zero perturbation within the
lifetime of a 14-byte message: the linear step is injective and 0x1021 is
nonzero, checked directly for all 112 possible trailing-bit counts. -/
theorem linIter_poly_ne_zero : ∀ m, m < 112 → linIter m 4129 ≠ 0 := by decide

theorem crc16_flip_ne (buf : Buf) (j k : Nat) (hj : j < 14) (hk : k < 8) :
    crc16 (writeByte buf j (readByte buf j ^^^ 2 ^ k)) ≠ crc16 buf := by
  rw [crc16_flipBit buf j k hj hk]
  intro h
  have h2 := congrArg (fun x => crc16 buf ^^^ x) h
  simp only [Nat.xor_cancel_left, Nat.xor_self] at h2
  exact linIter_poly_ne_zero _ (by omega) h2

theorem isValid_false_of_crc_ne (buf : Buf)
    (h : crc16 buf ≠ read16 buf (kByteSize - 2)) :
    Header.Parser.IsValid buf = false := by
  simp [Header.Parser.IsValid, h]

/-- C8: flipping any single bit (byte `j < 14`, bit `k < 8`) of a built
frame makes `IsValid` return false: the stored checksum no longer matches
the CRC recomputed over the altered first 14 bytes (and a byte-0 flip also
breaks the magic check). -/
theorem built_bitflip_invalid (buf : Buf) (j k : Nat) (hj : j < 14) (hk : k < 8) :
    Header.Parser.IsValid
      (writeByte (Header.Builder.Build buf) j
        (readByte (Header.Builder.Build buf) j ^^^ 2 ^ k)) = false := by
  set B := Header.Builder.Build buf with hB
  apply isValid_false_of_crc_ne
  have h16 : read16 (writeByte B j (readByte B j ^^^ 2 ^ k)) (kByteSize - 2)
      = read16 B (kByteSize - 2) := by
    simp only [read16, kByteSize]
    rw [readByte_writeByte_ne _ _ _ _ (by omega),
      readByte_writeByte_ne _ _ _ _ (by omega)]
  have hstored : crc16 B = read16 B (kByteSize - 2) := by
    rw [hB, crc16_Build, read16_Build]
  rw [h16, ← hstored]
  exact crc16_flip_ne B j k hj hk

/-- Witness for C8 at a concrete input. -/
theorem built_bitflip_invalid_witness :
    3 < 14 ∧ 2 < 8 ∧
    Header.Parser.IsValid
      (writeByte (Header.Builder.Build (fun _ => 0)) 3
        (readByte (Header.Builder.Build (fun _ => 0)) 3 ^^^ 2 ^ 2)) = false :=
  ⟨by decide, by decide,
    built_bitflip_invalid (fun _ => 0) 3 2 (by decide) (by decide)⟩

/-- Witness for C1 at a concrete input. -/
theorem header_roundtrip_witness :
    (1 < 256 ∧ 2 < 4294967296 ∧ 3 < 65536 ∧ 4 < 16777216 ∧ 5 < 256 ∧ 6 < 65536) ∧
    (Header.Parser.type (builtFrame (fun _ => 0) 1 2 3 4 5 6) = 1 ∧
      Header.Parser.id (builtFrame (fun _ => 0) 1 2 3 4 5 6) = 2 ∧
      Header.Parser.body_type (builtFrame (fun _ => 0) 1 2 3 4 5 6) = 3 ∧
      Header.Parser.body_size (builtFrame (fun _ => 0) 1 2 3 4 5 6) = 4 ∧
      Header.Parser.ext_count (builtFrame (fun _ => 0) 1 2 3 4 5 6) = 5 ∧
      Header.Parser.ext_len (builtFrame (fun _ => 0) 1 2 3 4 5 6) = 6 ∧
      Header.Parser.IsValid (builtFrame (fun _ => 0) 1 2 3 4 5 6) = true) :=
  ⟨⟨by decide, by decide, by decide, by decide, by decide, by decide⟩,
    header_roundtrip (fun _ => 0) 1 2 3 4 5 6
      (by decide) (by decide) (by decide) (by decide) (by decide) (by decide)⟩

/-- C5: for every async operation, when the session is closed or the
foreign submission fails synchronously, the user callback fires exactly
once, synchronously, with `kInvalidState` (closed) or the submission
error, and neither watch map changes. -/
theorem async_ops_failure_sync {W C A O R : Type} (st : KeeperState W C)
    (path value scheme cert : String) (version : Int) (acls : List A)
    (mode : Nat) (w : Option W) (cw : Option C) (ops : List O)
    (MakeResult : O → R) (submit : Status)
    (hfail : st.zh = false ∨ submit.IsOk = false) :
    ((Keeper.Impl.Get st path w submit).callbackNow
        = some (if st.zh then submit else Status.kInvalidState) ∧
      (Keeper.Impl.Get st path w submit).state.node_watcher = st.node_watcher ∧
      (Keeper.Impl.Get st path w submit).state.child_watcher = st.child_watcher) ∧
    ((Keeper.Impl.Exists st path w submit).callbackNow
        = some (if st.zh then submit else Status.kInvalidState) ∧
      (Keeper.Impl.Exists st path w submit).state.node_watcher = st.node_watcher ∧
      (Keeper.Impl.Exists st path w submit).state.child_watcher = st.child_watcher) ∧
    ((Keeper.Impl.GetChildren st path cw submit).callbackNow
        = some (if st.zh then submit else Status.kInvalidState) ∧
      (Keeper.Impl.GetChildren st path cw submit).state.node_watcher = st.node_watcher ∧
      (Keeper.Impl.GetChildren st path cw submit).state.child_watcher = st.child_watcher) ∧
    ((Keeper.Impl.GetChildrenWithStat st path cw submit).callbackNow
        = some (if st.zh then submit else Status.kInvalidState) ∧
      (Keeper.Impl.GetChildrenWithStat st path cw submit).state.node_watcher = st.node_watcher ∧
      (Keeper.Impl.GetChildrenWithStat st path cw submit).state.child_watcher = st.child_watcher) ∧
    ((Keeper.Impl.Create st path value acls mode submit).callbackNow
        = some (if st.zh then submit else Status.kInvalidState) ∧
      (Keeper.Impl.Create st path value acls mode submit).state = st) ∧
    ((Keeper.Impl.Delete st path version submit).callbackNow
        = some (if st.zh then submit else Status.kInvalidState) ∧
      (Keeper.Impl.Delete st path version submit).state = st) ∧
    ((Keeper.Impl.Set st path value version submit).callbackNow
        = some (if st.zh then submit else Status.kInvalidState) ∧
      (Keeper.Impl.Set st path value version submit).state = st) ∧
    ((Keeper.Impl.GetAcl st path submit).callbackNow
        = some (if st.zh then submit else Status.kInvalidState) ∧
      (Keeper.Impl.GetAcl st path submit).state = st) ∧
    ((Keeper.Impl.SetAcl st path acls version submit).callbackNow
        = some (if st.zh then submit else Status.kInvalidState) ∧
      (Keeper.Impl.SetAcl st path acls version submit).state = st) ∧
    ((Keeper.Impl.AddAuth st scheme cert submit).callbackNow
        = some (if st.zh then submit else Status.kInvalidState) ∧
      (Keeper.Impl.AddAuth st scheme cert submit).state = st) ∧
    ((Keeper.Impl.Multi st ops MakeResult submit).1.callbackNow
        = some (if st.zh then submit else Status.kInvalidState) ∧
      (Keeper.Impl.Multi st ops MakeResult submit).1.state = st) := by
  rcases hfail with hzh | hsub
  · simp [Keeper.Impl.Get, Keeper.Impl.Exists, Keeper.Impl.GetChildren,
      Keeper.Impl.GetChildrenWithStat, Keeper.Impl.Create, Keeper.Impl.Delete,
      Keeper.Impl.Set, Keeper.Impl.GetAcl, Keeper.Impl.SetAcl,
      Keeper.Impl.AddAuth, Keeper.Impl.Multi, hzh]
  · cases hzh : st.zh
    · simp [Keeper.Impl.Get, Keeper.Impl.Exists, Keeper.Impl.GetChildren,
        Keeper.Impl.GetChildrenWithStat, Keeper.Impl.Create, Keeper.Impl.Delete,
        Keeper.Impl.Set, Keeper.Impl.GetAcl, Keeper.Impl.SetAcl,
        Keeper.Impl.AddAuth, Keeper.Impl.Multi, hzh]
    · simp [Keeper.Impl.Get, Keeper.Impl.Exists, Keeper.Impl.GetChildren,
        Keeper.Impl.GetChildrenWithStat, Keeper.Impl.Create, Keeper.Impl.Delete,
        Keeper.Impl.Set, Keeper.Impl.GetAcl, Keeper.Impl.SetAcl,
        Keeper.Impl.AddAuth, Keeper.Impl.Multi, hzh, hsub]

/-- C6: after delivering a readiness event, the handler re-arms another
reactor wait exactly when `IsOpen()` is true and `IsUnrecoverable()` is
false; the result does not depend on the `Process` status (only the
asserted bad-arguments case aborts), so a failed `Process` alone never
stops the loop. -/
theorem handleEvent_rearm_iff (zhOpen : Bool) (zooStatus : Status)
    (after : SessionAfter) (hba : zooStatus.IsBadArguments = false) :
    Keeper.Impl.HandleEvent zhOpen zooStatus after
      = some (after.isOpen && !after.unrecoverable) := by
  unfold Keeper.Impl.HandleEvent Keeper.Impl.Process
  cases zhOpen
  · simp [Status.IsOk, Status.IsBadArguments]
  · simp [hba]

/-- Witness for C6: a failed (but not bad-arguments) `Process` status on
an open, recoverable session still re-arms. -/
theorem handleEvent_rearm_iff_witness :
    (Status.kError 5).IsBadArguments = false ∧
    Keeper.Impl.HandleEvent true (Status.kError 5)
      { isOpen := true, unrecoverable := false } = some true :=
  ⟨rfl, handleEvent_rearm_iff true (Status.kError 5)
    { isOpen := true, unrecoverable := false } rfl⟩

/-- C7: a `Multi` call on an open session builds, before submission,
exactly one result slot per step in submission order: the completion
record carries `count = ops.length` and `results = ops.map MakeResult`
(so slot count equals step count and the `i`-th slot comes from the
`i`-th op), independently of the submission outcome. -/
theorem multi_result_slots {W C O R : Type} (st : KeeperState W C)
    (ops : List O) (MakeResult : O → R) (submit : Status) (i : Nat)
    (hopen : st.zh = true) (hi : i < ops.length) :
    (Keeper.Impl.Multi st ops MakeResult submit).2
      = some { count := ops.length, results := ops.map MakeResult } ∧
    (ops.map MakeResult).length = ops.length ∧
    (ops.map MakeResult).get ⟨i, by simpa using hi⟩ = MakeResult (ops.get ⟨i, hi⟩) := by
  refine ⟨?_, List.length_map _ _, ?_⟩
  · simp only [Keeper.Impl.Multi, hopen, Bool.not_true, Bool.false_eq_true,
      if_false]
    split <;> rfl
  · simp

/-- Witness for C7 at a concrete 3-step batch whose submission fails. -/
theorem multi_result_slots_witness :
    stOpen.zh = true ∧ 1 < ([10, 20, 30] : List Nat).length ∧
    ((Keeper.Impl.Multi stOpen [10, 20, 30] (fun o => o + 1) (Status.kError 7)).2
        = some { count := ([10, 20, 30] : List Nat).length,
                 results := ([10, 20, 30] : List Nat).map (fun o => o + 1) } ∧
      (([10, 20, 30] : List Nat).map (fun o => o + 1)).length
        = ([10, 20, 30] : List Nat).length ∧
      (([10, 20, 30] : List Nat).map (fun o => o + 1)).get ⟨1, by decide⟩
        = (fun o => o + 1) (([10, 20, 30] : List Nat).get ⟨1, by decide⟩)) :=
  ⟨rfl, by decide,
    multi_result_slots stOpen [10, 20, 30] (fun o => o + 1) (Status.kError 7) 1
      rfl (by decide)⟩

/-- C9: two successful `Get` calls for the same path leave that path's
node-watcher list extended by both supplied watchers, first call's
watcher first (registration accumulates in call order). -/
theorem get_twice_watchers {W C : Type} (st : KeeperState W C) (path : String)
    (w1 w2 : Option W) (s1 s2 : Status) (hopen : st.zh = true)
    (h1 : s1.IsOk = true) (h2 : s2.IsOk = true) :
    (Keeper.Impl.Get (Keeper.Impl.Get st path w1 s1).state path w2 s2).state.node_watcher path
      = st.node_watcher path ++ [w1, w2] := by
  simp [Keeper.Impl.Get, hopen, h1, h2, registerWatch]

/-- Witness for C9 at a concrete input. -/
theorem get_twice_watchers_witness :
    stOpen.zh = true ∧ Status.kOk.IsOk = true ∧
    (Keeper.Impl.Get (Keeper.Impl.Get stOpen "a" (some 1) Status.kOk).state
        "a" (some 2) Status.kOk).state.node_watcher "a"
      = stOpen.node_watcher "a" ++ [some 1, some 2] :=
  ⟨rfl, rfl, get_twice_watchers stOpen "a" (some 1) (some 2)
    Status.kOk Status.kOk rfl rfl rfl⟩

/-- C10: every accepted `Get`/`Exists` call appends exactly one entry to
the path's node-watcher list, and every accepted `GetChildren`/
`GetChildrenWithStat` call appends exactly one entry to the path's
child-watcher list — the supplied watcher itself, even when null — while
other paths and the other map are untouched; a non-null watch function is
passed to the foreign submit call only for a non-null watcher. -/
theorem register_watch_on_success {W C : Type} (st : KeeperState W C)
    (path q : String) (w : Option W) (cw : Option C) (submit : Status)
    (hopen : st.zh = true) (hok : submit.IsOk = true) (hq : q ≠ path) :
    ((Keeper.Impl.Get st path w submit).state.node_watcher path
        = st.node_watcher path ++ [w] ∧
      (Keeper.Impl.Get st path w submit).state.node_watcher q = st.node_watcher q ∧
      (Keeper.Impl.Get st path w submit).state.child_watcher = st.child_watcher ∧
      (Keeper.Impl.Get st path w submit).watchFnPassed = w.isSome) ∧
    ((Keeper.Impl.Exists st path w submit).state.node_watcher path
        = st.node_watcher path ++ [w] ∧
      (Keeper.Impl.Exists st path w submit).state.node_watcher q = st.node_watcher q ∧
      (Keeper.Impl.Exists st path w submit).state.child_watcher = st.child_watcher ∧
      (Keeper.Impl.Exists st path w submit).watchFnPassed = w.isSome) ∧
    ((Keeper.Impl.GetChildren st path cw submit).state.child_watcher path
        = st.child_watcher path ++ [cw] ∧
      (Keeper.Impl.GetChildren st path cw submit).state.child_watcher q
        = st.child_watcher q ∧
      (Keeper.Impl.GetChildren st path cw submit).state.node_watcher = st.node_watcher ∧
      (Keeper.Impl.GetChildren st path cw submit).watchFnPassed = cw.isSome) ∧
    ((Keeper.Impl.GetChildrenWithStat st path cw submit).state.child_watcher path
        = st.child_watcher path ++ [cw] ∧
      (Keeper.Impl.GetChildrenWithStat st path cw submit).state.child_watcher q
        = st.child_watcher q ∧
      (Keeper.Impl.GetChildrenWithStat st path cw submit).state.node_watcher
        = st.node_watcher ∧
      (Keeper.Impl.GetChildrenWithStat st path cw submit).watchFnPassed = cw.isSome) := by
  simp [Keeper.Impl.Get, Keeper.Impl.Exists, Keeper.Impl.GetChildren,
    Keeper.Impl.GetChildrenWithStat, hopen, hok, registerWatch, hq]

/-- Witness for C10 with null watchers: the null watcher is stored and no
foreign watch function is passed. -/
theorem register_watch_on_success_witness :
    (stOpen.zh = true ∧ Status.kOk.IsOk = true ∧ "b" ≠ "a") ∧
    (((Keeper.Impl.Get stOpen "a" none Status.kOk).state.node_watcher "a"
        = stOpen.node_watcher "a" ++ [none] ∧
      (Keeper.Impl.Get stOpen "a" none Status.kOk).state.node_watcher "b"
        = stOpen.node_watcher "b" ∧
      (Keeper.Impl.Get stOpen "a" none Status.kOk).state.child_watcher
        = stOpen.child_watcher ∧
      (Keeper.Impl.Get stOpen "a" none Status.kOk).watchFnPassed
        = (none : Option Nat).isSome) ∧
    ((Keeper.Impl.Exists stOpen "a" none Status.kOk).state.node_watcher "a"
        = stOpen.node_watcher "a" ++ [none] ∧
      (Keeper.Impl.Exists stOpen "a" none Status.kOk).state.node_watcher "b"
        = stOpen.node_watcher "b" ∧
      (Keeper.Impl.Exists stOpen "a" none Status.kOk).state.child_watcher
        = stOpen.child_watcher ∧
      (Keeper.Impl.Exists stOpen "a" none Status.kOk).watchFnPassed
        = (none : Option Nat).isSome) ∧
    ((Keeper.Impl.GetChildren stOpen "a" none Status.kOk).state.child_watcher "a"
        = stOpen.child_watcher "a" ++ [none] ∧
      (Keeper.Impl.GetChildren stOpen "a" none Status.kOk).state.child_watcher "b"
        = stOpen.child_watcher "b" ∧
      (Keeper.Impl.GetChildren stOpen "a" none Status.kOk).state.node_watcher
        = stOpen.node_watcher ∧
      (Keeper.Impl.GetChildren stOpen "a" none Status.kOk).watchFnPassed
        = (none : Option Nat).isSome) ∧
    ((Keeper.Impl.GetChildrenWithStat stOpen "a" none Status.kOk).state.child_watcher "a"
        = stOpen.child_watcher "a" ++ [none] ∧
      (Keeper.Impl.GetChildrenWithStat stOpen "a" none Status.kOk).state.child_watcher "b"
        = stOpen.child_watcher "b" ∧
      (Keeper.Impl.GetChildrenWithStat stOpen "a" none Status.kOk).state.node_watcher
        = stOpen.node_watcher ∧
      (Keeper.Impl.GetChildrenWithStat stOpen "a" none Status.kOk).watchFnPassed
        = (none : Option Nat).isSome)) :=
  ⟨⟨rfl, rfl, by decide⟩,
    register_watch_on_success stOpen "a" "b" none none Status.kOk rfl rfl (by decide)⟩

/-- Witness for C5: every operation called on a closed session fires its
callback synchronously with `kInvalidState` and registers nothing. -/
theorem async_ops_failure_sync_witness :
    (stClosed.zh = false ∨ Status.kOk.IsOk = false) ∧
    (((Keeper.Impl.Get stClosed "p" (none : Option Nat) Status.kOk).callbackNow = some (if stClosed.zh then Status.kOk else Status.kInvalidState) ∧
      (Keeper.Impl.Get stClosed "p" (none : Option Nat) Status.kOk).state.node_watcher = stClosed.node_watcher ∧
      (Keeper.Impl.Get stClosed "p" (none : Option Nat) Status.kOk).state.child_watcher = stClosed.child_watcher) ∧
    ((Keeper.Impl.Exists stClosed "p" (none : Option Nat) Status.kOk).callbackNow = some (if stClosed.zh then Status.kOk else Status.kInvalidState) ∧
      (Keeper.Impl.Exists stClosed "p" (none : Option Nat) Status.kOk).state.node_watcher = stClosed.node_watcher ∧
      (Keeper.Impl.Exists stClosed "p" (none : Option Nat) Status.kOk).state.child_watcher = stClosed.child_watcher) ∧
    ((Keeper.Impl.GetChildren stClosed "p" (none : Option Nat) Status.kOk).callbackNow = some (if stClosed.zh then Status.kOk else Status.kInvalidState) ∧
      (Keeper.Impl.GetChildren stClosed "p" (none : Option Nat) Status.kOk).state.node_watcher = stClosed.node_watcher ∧
      (Keeper.Impl.GetChildren stClosed "p" (none : Option Nat) Status.kOk).state.child_watcher = stClosed.child_watcher) ∧
    ((Keeper.Impl.GetChildrenWithStat stClosed "p" (none : Option Nat) Status.kOk).callbackNow = some (if stClosed.zh then Status.kOk else Status.kInvalidState) ∧
      (Keeper.Impl.GetChildrenWithStat stClosed "p" (none : Option Nat) Status.kOk).state.node_watcher = stClosed.node_watcher ∧
      (Keeper.Impl.GetChildrenWithStat stClosed "p" (none : Option Nat) Status.kOk).state.child_watcher = stClosed.child_watcher) ∧
    ((Keeper.Impl.Create stClosed "p" "v" ([] : List Nat) 0 Status.kOk).callbackNow = some (if stClosed.zh then Status.kOk else Status.kInvalidState) ∧
      (Keeper.Impl.Create stClosed "p" "v" ([] : List Nat) 0 Status.kOk).state = stClosed) ∧
    ((Keeper.Impl.Delete stClosed "p" (0 : Int) Status.kOk).callbackNow = some (if stClosed.zh then Status.kOk else Status.kInvalidState) ∧
      (Keeper.Impl.Delete stClosed "p" (0 : Int) Status.kOk).state = stClosed) ∧
    ((Keeper.Impl.Set stClosed "p" "v" (0 : Int) Status.kOk).callbackNow = some (if stClosed.zh then Status.kOk else Status.kInvalidState) ∧
      (Keeper.Impl.Set stClosed "p" "v" (0 : Int) Status.kOk).state = stClosed) ∧
    ((Keeper.Impl.GetAcl stClosed "p" Status.kOk).callbackNow = some (if stClosed.zh then Status.kOk else Status.kInvalidState) ∧
      (Keeper.Impl.GetAcl stClosed "p" Status.kOk).state = stClosed) ∧
    ((Keeper.Impl.SetAcl stClosed "p" ([] : List Nat) (0 : Int) Status.kOk).callbackNow = some (if stClosed.zh then Status.kOk else Status.kInvalidState) ∧
      (Keeper.Impl.SetAcl stClosed "p" ([] : List Nat) (0 : Int) Status.kOk).state = stClosed) ∧
    ((Keeper.Impl.AddAuth stClosed "u" "c" Status.kOk).callbackNow = some (if stClosed.zh then Status.kOk else Status.kInvalidState) ∧
      (Keeper.Impl.AddAuth stClosed "u" "c" Status.kOk).state = stClosed) ∧
    (((Keeper.Impl.Multi stClosed ([] : List Nat) (fun o => o) Status.kOk).1).callbackNow = some (if stClosed.zh then Status.kOk else Status.kInvalidState) ∧
      ((Keeper.Impl.Multi stClosed ([] : List Nat) (fun o => o) Status.kOk).1).state = stClosed)) :=
  ⟨Or.inl rfl,
    async_ops_failure_sync stClosed "p" "v" "u" "c" 0 ([] : List Nat) 0
      (none : Option Nat) (none : Option Nat) ([] : List Nat) (fun o => o)
      Status.kOk (Or.inl rfl)⟩
